import Mathlib

/-!
Shallow embedding of the task-management application's core logic
(TaskCard: color mappings, overdue derivation, quick status change;
TaskForm: schema validation, submission normalization, create/update flow),
with theorems settling the specification's claims.

Dates are modelled as integer timestamps where the code compares `Date`
objects; strings elsewhere mirror the JavaScript values directly.
-/

namespace TaskApp

/-- The `status` enumeration of a task: `'pending' | 'in_progress' | 'completed'`. -/
inductive Status
  | pending
  | in_progress
  | completed
deriving DecidableEq, Repr

/-- The `priority` enumeration of a task: `'low' | 'medium' | 'high'`. -/
inductive Priority
  | low
  | medium
  | high
deriving DecidableEq, Repr

/-- The `Task` record as declared in `TaskCard.tsx` / `TaskForm`:
optional fields are `Option`, the rest are strings or the enumerations. -/
structure Task where
  id : String
  title : String
  description : Option String
  status : Status
  priority : Priority
  due_date : Option String
  created_at : String
  updated_at : String
deriving DecidableEq, Repr

/-- `getStatusColor` from `TaskCard.tsx`: a switch over the status string
with a default arm (the secondary badge classes). -/
def getStatusColor (status : String) : String :=
  if status = "pending" then
    "bg-yellow-100 text-yellow-800 hover:bg-yellow-200 dark:bg-yellow-900/20 dark:text-yellow-300"
  else if status = "in_progress" then
    "bg-blue-100 text-blue-800 hover:bg-blue-200 dark:bg-blue-900/20 dark:text-blue-300"
  else if status = "completed" then
    "bg-green-100 text-green-800 hover:bg-green-200 dark:bg-green-900/20 dark:text-green-300"
  else
    "bg-secondary text-secondary-foreground hover:bg-secondary/80"

/-- `getPriorityColor` from `TaskCard.tsx`: a switch over the priority string
with the same default arm. -/
def getPriorityColor (priority : String) : String :=
  if priority = "high" then
    "bg-red-100 text-red-800 hover:bg-red-200 dark:bg-red-900/20 dark:text-red-300"
  else if priority = "medium" then
    "bg-orange-100 text-orange-800 hover:bg-orange-200 dark:bg-orange-900/20 dark:text-orange-300"
  else if priority = "low" then
    "bg-gray-100 text-gray-800 hover:bg-gray-200 dark:bg-gray-900/20 dark:text-gray-300"
  else
    "bg-secondary text-secondary-foreground hover:bg-secondary/80"

/-- `isOverdue` from `TaskCard.tsx`.  The due date and "today at midnight"
are modelled as integer timestamps: `none` is a missing (or falsy) due-date
string, `some d` the value of `new Date(dueDateString)`, and `todayMidnight`
the value of `new Date()` after `setHours(0, 0, 0, 0)`.  The closed-over
`task.status` is the third argument. -/
def isOverdue (dueDate : Option Int) (todayMidnight : Int) (status : Status) : Bool :=
  match dueDate with
  | none => false
  | some d => decide (d < todayMidnight) && decide (status ≠ Status.completed)

/-- C1: `isOverdue` is true iff a due date is present, strictly earlier than
today at midnight, and the status is not `completed`; it is false when the
due date is absent, when the due date is today or later, and when the task
is completed. -/
theorem c1_isOverdue_iff (dueDate : Option Int) (todayMidnight : Int) (status : Status) :
    (isOverdue dueDate todayMidnight status = true ↔
      ∃ d : Int, dueDate = some d ∧ d < todayMidnight ∧ status ≠ Status.completed) ∧
    (dueDate = none → isOverdue dueDate todayMidnight status = false) ∧
    (∀ d : Int, dueDate = some d → todayMidnight ≤ d →
      isOverdue dueDate todayMidnight status = false) ∧
    (status = Status.completed → isOverdue dueDate todayMidnight status = false) := by
  refine ⟨?_, ?_, ?_, ?_⟩
  · constructor
    · intro h
      match hd : dueDate with
      | none => simp [isOverdue, hd] at h
      | some d =>
        simp only [isOverdue, Bool.and_eq_true, decide_eq_true_eq] at h
        exact ⟨d, rfl, h.1, h.2⟩
    · rintro ⟨d, rfl, hlt, hst⟩
      simp [isOverdue, hlt, hst]
  · rintro rfl
    simp [isOverdue]
  · rintro d rfl hle
    simp only [isOverdue, Bool.and_eq_false_iff, decide_eq_false_iff_not, not_lt]
    exact Or.inl hle
  · rintro rfl
    cases dueDate <;> simp [isOverdue]

/-- Witness for C1 at concrete inputs: a task due before midnight and still
pending is overdue; a task with no due date is not. -/
theorem c1_isOverdue_iff_witness :
    isOverdue (some (-1)) 0 Status.pending = true ∧
    isOverdue none 0 Status.pending = false :=
  ⟨(c1_isOverdue_iff (some (-1)) 0 Status.pending).1.mpr
      ⟨-1, rfl, by decide, by decide⟩,
    (c1_isOverdue_iff none 0 Status.pending).2.1 rfl⟩

/-- C9: each of the three valid status values and three valid priority
values maps to a non-empty class string, and any string outside the
enumeration maps to the default secondary style; both functions are plain
total functions. -/
theorem c9_color_mapping (s p : String) :
    (getStatusColor "pending" ≠ "" ∧ getStatusColor "in_progress" ≠ "" ∧
      getStatusColor "completed" ≠ "") ∧
    (getPriorityColor "low" ≠ "" ∧ getPriorityColor "medium" ≠ "" ∧
      getPriorityColor "high" ≠ "") ∧
    (s ∉ (["pending", "in_progress", "completed"] : List String) →
      getStatusColor s = "bg-secondary text-secondary-foreground hover:bg-secondary/80") ∧
    (p ∉ (["low", "medium", "high"] : List String) →
      getPriorityColor p = "bg-secondary text-secondary-foreground hover:bg-secondary/80") := by
  refine ⟨⟨by decide, by decide, by decide⟩, ⟨by decide, by decide, by decide⟩, ?_, ?_⟩
  · intro h
    simp only [List.mem_cons, List.not_mem_nil, or_false, not_or] at h
    simp [getStatusColor, h.1, h.2.1, h.2.2]
  · intro h
    simp only [List.mem_cons, List.not_mem_nil, or_false, not_or] at h
    simp [getPriorityColor, h.1, h.2.1, h.2.2]

/-- Witness for C9 at concrete inputs: the valid value "pending" gets a
non-empty class and the unrecognized value "archived" gets the default. -/
theorem c9_color_mapping_witness :
    getStatusColor "pending" ≠ "" ∧
    getStatusColor "archived" = "bg-secondary text-secondary-foreground hover:bg-secondary/80" :=
  ⟨(c9_color_mapping "archived" "urgent").1.1,
    (c9_color_mapping "archived" "urgent").2.2.1 (by decide)⟩

/-- The values of the task form's registered inputs (react-hook-form):
every registered control yields a string, empty when the user left it blank. -/
structure RawForm where
  title : String
  description : String
  status : String
  priority : String
  due_date : String
deriving DecidableEq, Repr

/-- The validated form data (`TaskFormData`, i.e. `z.infer<typeof taskSchema>`):
`description` and `due_date` are `.optional()` strings, `status` and
`priority` are the parsed enumerations. -/
structure TaskFormData where
  title : String
  description : Option String
  status : Status
  priority : Priority
  due_date : Option String
deriving DecidableEq, Repr

/-- The title checks of `taskSchema`:
`z.string().min(1, 'Title is required').max(100, 'Title must be less than 100 characters')`.
Returns the first failing check's message, or `none` when the title passes. -/
def validateTitle (title : String) : Option String :=
  if title.length < 1 then some "Title is required"
  else if title.length > 100 then some "Title must be less than 100 characters"
  else none

/-- `z.enum(['pending', 'in_progress', 'completed'])`. -/
def parseStatus (s : String) : Option Status :=
  if s = "pending" then some Status.pending
  else if s = "in_progress" then some Status.in_progress
  else if s = "completed" then some Status.completed
  else none

/-- `z.enum(['low', 'medium', 'high'])`. -/
def parsePriority (s : String) : Option Priority :=
  if s = "low" then some Priority.low
  else if s = "medium" then some Priority.medium
  else if s = "high" then some Priority.high
  else none

/-- The field-level issues `taskSchema` reports for a raw form, as
(field, message) pairs, in field order. -/
def formErrors (f : RawForm) : List (String × String) :=
  (match validateTitle f.title with
    | some m => [("title", m)]
    | none => [])
  ++ (match parseStatus f.status with
    | none => [("status", "Invalid enum value")]
    | some _ => [])
  ++ (match parsePriority f.priority with
    | none => [("priority", "Invalid enum value")]
    | some _ => [])

/-- `zodResolver(taskSchema)` applied to the raw form values: succeeds with
the parsed `TaskFormData` exactly when every field check passes, otherwise
fails with the collected field issues.  `description` and `due_date` are
registered text/date inputs, so they arrive as (possibly empty) strings. -/
def validateForm (f : RawForm) : Except (List (String × String)) TaskFormData :=
  match parseStatus f.status, parsePriority f.priority with
  | some st, some pr =>
    if validateTitle f.title = none then
      Except.ok ⟨f.title, some f.description, st, pr, some f.due_date⟩
    else
      Except.error (formErrors f)
  | _, _ => Except.error (formErrors f)

/-- Models `new Date(s).toISOString()` for the `YYYY-MM-DD` strings produced
by the form's date input: JavaScript parses a date-only string as UTC
midnight, so the result is the date suffixed with `T00:00:00.000Z`. -/
def dateToISOString (s : String) : String :=
  s ++ "T00:00:00.000Z"

/-- The record sent to the remote call (`taskData` in `handleSubmit`):
`description: data.description || null`,
`due_date: data.due_date ? new Date(data.due_date).toISOString() : null`,
`user_id: user.id`. -/
structure TaskData where
  title : String
  description : Option String
  status : Status
  priority : Priority
  due_date : Option String
  user_id : String
deriving DecidableEq, Repr

/-- Builds `taskData` from the validated form data and the authenticated
user's id, mirroring the JavaScript falsiness of `||` and `?:` on strings
(both `undefined` and `""` become `null`). -/
def mkTaskData (data : TaskFormData) (userId : String) : TaskData :=
  { title := data.title
    description :=
      match data.description with
      | none => none
      | some s => if s = "" then none else some s
    status := data.status
    priority := data.priority
    due_date :=
      match data.due_date with
      | none => none
      | some s => if s = "" then none else some (dateToISOString s)
    user_id := userId }

/-- A toast notification: title, description, and whether the
`destructive` (error) variant was used. -/
structure Toast where
  title : String
  description : String
  destructive : Bool
deriving DecidableEq, Repr

/-- The remote table operation issued by the form's `handleSubmit`:
`insert([taskData])` on create, `update(taskData).eq('id', id)` on edit. -/
inductive DbRequest
  | insert (record : TaskData)
  | update (id : String) (record : TaskData)
deriving DecidableEq, Repr

/-- Observable outcome of one run of the form's `handleSubmit`:
the remote request issued (if any), the argument passed to `onSave`
(if invoked), the toasts shown, whether `setLoading(true)` ran, and the
final value of `loading`. -/
structure SubmitOutcome where
  request : Option DbRequest
  saved : Option Task
  toasts : List Toast
  loadingDuring : Bool
  loadingAfter : Bool
deriving DecidableEq, Repr

/-- `handleSubmit` from the task form, over already-validated data.
`user` is the authenticated user's id (if any), `task` the task being
edited (if any), and `server` the result of the remote call
(`Except.error msg` models a thrown error whose `.message` is `msg`). -/
def handleSubmit (user : Option String) (task : Option Task) (data : TaskFormData)
    (server : Except String Task) : SubmitOutcome :=
  match user with
  | none =>
    { request := none, saved := none, toasts := [],
      loadingDuring := false, loadingAfter := false }
  | some uid =>
    let taskData := mkTaskData data uid
    let req :=
      match task with
      | some t => DbRequest.update t.id taskData
      | none => DbRequest.insert taskData
    match server with
    | Except.ok returned =>
      { request := some req
        saved := some returned
        toasts := [⟨"Success",
          match task with
          | some _ => "Task updated successfully"
          | none => "Task created successfully", false⟩]
        loadingDuring := true
        loadingAfter := false }
    | Except.error msg =>
      { request := some req
        saved := none
        toasts := [⟨"Error", if msg = "" then "Failed to save task" else msg, true⟩]
        loadingDuring := true
        loadingAfter := false }

/-- Observable outcome of submitting the form
(`form.handleSubmit(handleSubmit)`): validation runs first and blocks the
handler on failure; `fieldsAfter` records the form's field values after the
run (the handler never writes them). -/
structure FormSubmitOutcome where
  fieldErrors : List (String × String)
  request : Option DbRequest
  saved : Option Task
  toasts : List Toast
  loadingAfter : Bool
  fieldsAfter : RawForm
deriving DecidableEq, Repr

/-- Submitting the task form: `zodResolver` validation gates
`handleSubmit`; on validation failure no network call, callback or toast
happens and the field errors are surfaced. -/
def submitForm (user : Option String) (task : Option Task) (f : RawForm)
    (server : Except String Task) : FormSubmitOutcome :=
  match validateForm f with
  | Except.error errs =>
    { fieldErrors := errs, request := none, saved := none, toasts := [],
      loadingAfter := false, fieldsAfter := f }
  | Except.ok data =>
    let o := handleSubmit user task data server
    { fieldErrors := [], request := o.request, saved := o.saved,
      toasts := o.toasts, loadingAfter := o.loadingAfter, fieldsAfter := f }

/-- A partial task record: the set of columns included in an update
payload (`none` means the column is not part of the payload).  The object
literal `{ status: newStatus }` in `handleStatusChange` includes only the
status column. -/
structure UpdatePayload where
  title : Option String
  description : Option (Option String)
  status : Option Status
  priority : Option Priority
  due_date : Option (Option String)
  user_id : Option String
deriving DecidableEq, Repr

/-- Observable outcome of one run of the card's `handleStatusChange`:
the update-by-id request (target id and payload), the argument passed to
`onUpdate` (if invoked), the toasts shown, whether `setUpdating(true)` ran,
and the final value of `updating`. -/
structure CardOutcome where
  request : Option (String × UpdatePayload)
  updated : Option Task
  toasts : List Toast
  updatingDuring : Bool
  updatingAfter : Bool
deriving DecidableEq, Repr

/-- `handleStatusChange` from `TaskCard.tsx`: issues
`update({ status: newStatus }).eq('id', task.id)`, invokes `onUpdate` with
the server's returned record on success, toasts an error on failure, and
resets `updating` in `finally`. -/
def handleStatusChange (task : Task) (newStatus : Status)
    (server : Except String Task) : CardOutcome :=
  let payload : UpdatePayload :=
    { title := none, description := none, status := some newStatus,
      priority := none, due_date := none, user_id := none }
  match server with
  | Except.ok returned =>
    { request := some (task.id, payload)
      updated := some returned
      toasts := [⟨"Success", "Task status updated successfully", false⟩]
      updatingDuring := true
      updatingAfter := false }
  | Except.error msg =>
    { request := some (task.id, payload)
      updated := none
      toasts := [⟨"Error",
        if msg = "" then "Failed to update task status" else msg, true⟩]
      updatingDuring := true
      updatingAfter := false }

/-- The spec's notion of a "plain date string": a date-only `YYYY-MM-DD`
string — ten characters, hyphens at positions 4 and 7, digits elsewhere,
and in particular no time component. -/
def isPlainDateString (s : String) : Bool :=
  decide (s.length = 10) &&
    s.toList.enum.all (fun p =>
      if p.1 = 4 ∨ p.1 = 7 then decide (p.2 = '-') else p.2.isDigit)

/-- A sample task record, as a server could return it. -/
def exampleTask : Task :=
  { id := "t1"
    title := "Buy milk"
    description := none
    status := Status.pending
    priority := Priority.medium
    due_date := some "2024-01-01T00:00:00.000Z"
    created_at := "2024-01-01T00:00:00.000Z"
    updated_at := "2024-01-02T00:00:00.000Z" }

/-- A raw form with a non-empty due date, as the date input produces it. -/
def c2Form : RawForm :=
  { title := "Buy milk", description := "", status := "pending",
    priority := "medium", due_date := "2024-01-01" }

/-- A raw form with empty description and due date. -/
def c3Form : RawForm :=
  { title := "T", description := "", status := "pending",
    priority := "low", due_date := "" }

/-- A raw form with an empty title. -/
def emptyTitleForm : RawForm :=
  { title := "", description := "", status := "pending",
    priority := "low", due_date := "" }

/-- A raw form whose title is 101 characters long. -/
def longTitleForm : RawForm :=
  { title := String.mk (List.replicate 101 'a'), description := "",
    status := "pending", priority := "low", due_date := "" }

/-- A raw form that passes validation. -/
def okForm : RawForm :=
  { title := "T", description := "d", status := "in_progress",
    priority := "high", due_date := "2024-05-05" }

/-- Successful validation fixes the shape of the parsed data: the title is
the raw title, and description/due-date are the raw strings wrapped in
`some`. -/
theorem validateForm_ok_shape (f : RawForm) (data : TaskFormData)
    (h : validateForm f = Except.ok data) :
    data.title = f.title ∧ data.description = some f.description ∧
    data.due_date = some f.due_date := by
  unfold validateForm at h
  split at h
  · split at h
    · injection h with h'
      subst h'
      exact ⟨rfl, rfl, rfl⟩
    · exact Except.noConfusion h
  · exact Except.noConfusion h

/-- When the title check fails, validation fails with the collected field
issues, which include the title's message. -/
theorem validateForm_title_err (f : RawForm) (m : String)
    (ht : validateTitle f.title = some m) :
    validateForm f = Except.error (formErrors f) ∧ ("title", m) ∈ formErrors f := by
  constructor
  · unfold validateForm
    split
    · rw [if_neg (by simp [ht])]
    · rfl
  · simp [formErrors, ht]

/-- Appending the `T00:00:00.000Z` suffix never yields a plain date string
(the result is longer than ten characters). -/
theorem isPlainDateString_append_suffix (s : String) :
    isPlainDateString (s ++ "T00:00:00.000Z") = false := by
  have h14 : ("T00:00:00.000Z" : String).length = 14 := rfl
  have hlen : (s ++ "T00:00:00.000Z").length ≠ 10 := by
    rw [String.length_append, h14]
    omega
  unfold isPlainDateString
  rw [decide_eq_false hlen]
  simp

/-- C2 counterexample: submitting the form with due date `2024-01-01`
sends `2024-01-01T00:00:00.000Z` — a full ISO datetime string, not a plain
date string — in the inserted record. -/
theorem c2_counterexample :
    (submitForm (some "user-1") none c2Form (Except.ok exampleTask)).request =
      some (DbRequest.insert
        { title := "Buy milk", description := none, status := Status.pending,
          priority := Priority.medium,
          due_date := some "2024-01-01T00:00:00.000Z", user_id := "user-1" }) ∧
    isPlainDateString "2024-01-01T00:00:00.000Z" = false := by
  exact ⟨rfl, by decide⟩

/-- C2 amended: for every submitted form that passes validation and has a
non-empty due_date, the record sent to the remote call stores the due date
as the plain date suffixed with `T00:00:00.000Z` — a full ISO 8601 UTC
datetime string, not a plain date string. -/
theorem c2_due_date_iso_datetime (uid : String) (task : Option Task) (f : RawForm)
    (server : Except String Task) (data : TaskFormData)
    (hv : validateForm f = Except.ok data) (hne : f.due_date ≠ "") :
    ∃ td : TaskData,
      (submitForm (some uid) task f server).request =
        some (match task with
          | some t => DbRequest.update t.id td
          | none => DbRequest.insert td) ∧
      td.due_date = some (f.due_date ++ "T00:00:00.000Z") ∧
      isPlainDateString (f.due_date ++ "T00:00:00.000Z") = false := by
  obtain ⟨-, -, hdd⟩ := validateForm_ok_shape f data hv
  refine ⟨mkTaskData data uid, ?_, ?_, isPlainDateString_append_suffix f.due_date⟩
  · unfold submitForm
    rw [hv]
    cases task <;> cases server <;> rfl
  · simp [mkTaskData, hdd, hne, dateToISOString]

/-- Witness for the amended C2 at a concrete submission. -/
theorem c2_due_date_iso_datetime_witness :
    ∃ td : TaskData,
      (submitForm (some "user-1") none c2Form (Except.ok exampleTask)).request =
        some (DbRequest.insert td) ∧
      td.due_date = some ("2024-01-01" ++ "T00:00:00.000Z") ∧
      isPlainDateString ("2024-01-01" ++ "T00:00:00.000Z") = false :=
  c2_due_date_iso_datetime "user-1" none c2Form (Except.ok exampleTask)
    ⟨"Buy milk", some "", Status.pending, Priority.medium, some "2024-01-01"⟩
    rfl (by decide)

/-- C3: for every validated submission, the record sent to the remote call
maps an empty-string description to absent, maps an empty-string due_date
to absent, and on create carries the authenticated user's id in `user_id`. -/
theorem c3_sent_record (uid : String) (task : Option Task) (f : RawForm)
    (server : Except String Task) (data : TaskFormData)
    (hv : validateForm f = Except.ok data) :
    ∃ td : TaskData,
      (submitForm (some uid) task f server).request =
        some (match task with
          | some t => DbRequest.update t.id td
          | none => DbRequest.insert td) ∧
      (f.description = "" → td.description = none) ∧
      (f.due_date = "" → td.due_date = none) ∧
      (task = none → td.user_id = uid) := by
  obtain ⟨-, hdesc, hdd⟩ := validateForm_ok_shape f data hv
  refine ⟨mkTaskData data uid, ?_, ?_, ?_, fun _ => rfl⟩
  · unfold submitForm
    rw [hv]
    cases task <;> cases server <;> rfl
  · intro h
    simp [mkTaskData, hdesc, h]
  · intro h
    simp [mkTaskData, hdd, h]

/-- Witness for C3 at a concrete submission with empty optional fields. -/
theorem c3_sent_record_witness :
    ∃ td : TaskData,
      (submitForm (some "user-1") none c3Form (Except.ok exampleTask)).request =
        some (DbRequest.insert td) ∧
      (c3Form.description = "" → td.description = none) ∧
      (c3Form.due_date = "" → td.due_date = none) ∧
      ((none : Option Task) = none → td.user_id = "user-1") :=
  c3_sent_record "user-1" none c3Form (Except.ok exampleTask)
    ⟨"T", some "", Status.pending, Priority.low, some ""⟩ rfl

/-- C4: an empty title is rejected before any network call with
"Title is required"; a 101-character title is rejected before any network
call with the length message; a title of 1 to 100 characters passes the
title check. -/
theorem c4_title_validation (user : Option String) (task : Option Task)
    (f : RawForm) (server : Except String Task) :
    (f.title = "" →
      (submitForm user task f server).request = none ∧
      (submitForm user task f server).saved = none ∧
      ("title", "Title is required") ∈ (submitForm user task f server).fieldErrors) ∧
    (f.title.length = 101 →
      (submitForm user task f server).request = none ∧
      ("title", "Title must be less than 100 characters") ∈
        (submitForm user task f server).fieldErrors) ∧
    (1 ≤ f.title.length → f.title.length ≤ 100 → validateTitle f.title = none) := by
  refine ⟨?_, ?_, ?_⟩
  · intro h
    have ht : validateTitle f.title = some "Title is required" := by
      simp [validateTitle, h]
    obtain ⟨hv, hmem⟩ := validateForm_title_err f _ ht
    unfold submitForm
    rw [hv]
    exact ⟨rfl, rfl, hmem⟩
  · intro h
    have ht : validateTitle f.title = some "Title must be less than 100 characters" := by
      simp [validateTitle, h]
    obtain ⟨hv, hmem⟩ := validateForm_title_err f _ ht
    unfold submitForm
    rw [hv]
    exact ⟨rfl, hmem⟩
  · intro h1 h100
    unfold validateTitle
    rw [if_neg (by omega), if_neg (by omega)]

/-- Witness for C4 at concrete forms: empty title, 101-character title,
and an in-range title. -/
theorem c4_title_validation_witness :
    ((submitForm none none emptyTitleForm (Except.ok exampleTask)).request = none ∧
      (submitForm none none emptyTitleForm (Except.ok exampleTask)).saved = none ∧
      ("title", "Title is required") ∈
        (submitForm none none emptyTitleForm (Except.ok exampleTask)).fieldErrors) ∧
    ("title", "Title must be less than 100 characters") ∈
      (submitForm none none longTitleForm (Except.ok exampleTask)).fieldErrors ∧
    validateTitle okForm.title = none :=
  ⟨(c4_title_validation none none emptyTitleForm (Except.ok exampleTask)).1 rfl,
    ((c4_title_validation none none longTitleForm (Except.ok exampleTask)).2.1 (by decide)).2,
    (c4_title_validation none none okForm (Except.ok exampleTask)).2.2 (by decide) (by decide)⟩

/-- C5: every quick status change issues an update-by-id whose payload
contains the status column and no other column, and on success the update
callback receives exactly the server-returned record. -/
theorem c5_quick_status (task : Task) (newStatus : Status)
    (server : Except String Task) :
    (∃ p : UpdatePayload,
      (handleStatusChange task newStatus server).request = some (task.id, p) ∧
      p.status = some newStatus ∧ p.title = none ∧ p.description = none ∧
      p.priority = none ∧ p.due_date = none ∧ p.user_id = none) ∧
    (∀ t : Task, server = Except.ok t →
      (handleStatusChange task newStatus server).updated = some t) ∧
    (∀ t : Task, (handleStatusChange task newStatus server).updated = some t →
      server = Except.ok t) := by
  refine ⟨⟨⟨none, none, some newStatus, none, none, none⟩, ?_, rfl, rfl, rfl, rfl, rfl, rfl⟩, ?_, ?_⟩
  · cases server <;> rfl
  · rintro t rfl
    rfl
  · intro t h
    cases server with
    | ok r =>
      simp only [handleStatusChange, Option.some.injEq] at h
      rw [h]
    | error m =>
      simp [handleStatusChange] at h

/-- Witness for C5: on a successful change the callback gets the server's
record. -/
theorem c5_quick_status_witness :
    (handleStatusChange exampleTask Status.completed (Except.ok exampleTask)).updated =
      some exampleTask :=
  (c5_quick_status exampleTask Status.completed (Except.ok exampleTask)).2.1
    exampleTask rfl

/-- C6: a failed quick status change shows a destructive error toast, does
not invoke the update callback, and the control re-enables (`updating`
ends false) regardless of the outcome. -/
theorem c6_status_failure (task : Task) (newStatus : Status) (msg : String)
    (server : Except String Task) :
    (handleStatusChange task newStatus (Except.error msg)).toasts =
      [⟨"Error", if msg = "" then "Failed to update task status" else msg, true⟩] ∧
    (handleStatusChange task newStatus (Except.error msg)).updated = none ∧
    (handleStatusChange task newStatus server).updatingAfter = false := by
  refine ⟨rfl, rfl, ?_⟩
  cases server <;> rfl

/-- C7: an update-mode submission whose remote call fails invokes no save
callback, shows an error toast carrying the failure message (or the
generic fallback), ends with `loading` false, and leaves the form's field
values unchanged. -/
theorem c7_update_failure (uid : String) (t : Task) (f : RawForm)
    (data : TaskFormData) (msg : String)
    (hv : validateForm f = Except.ok data) :
    (submitForm (some uid) (some t) f (Except.error msg)).saved = none ∧
    (submitForm (some uid) (some t) f (Except.error msg)).toasts =
      [⟨"Error", if msg = "" then "Failed to save task" else msg, true⟩] ∧
    (submitForm (some uid) (some t) f (Except.error msg)).loadingAfter = false ∧
    (submitForm (some uid) (some t) f (Except.error msg)).fieldsAfter = f := by
  unfold submitForm
  rw [hv]
  exact ⟨rfl, rfl, rfl, rfl⟩

/-- Witness for C7 at a concrete failing update. -/
theorem c7_update_failure_witness :
    (submitForm (some "user-1") (some exampleTask) okForm (Except.error "boom")).saved = none ∧
    (submitForm (some "user-1") (some exampleTask) okForm (Except.error "boom")).toasts =
      [⟨"Error", if "boom" = "" then "Failed to save task" else "boom", true⟩] ∧
    (submitForm (some "user-1") (some exampleTask) okForm (Except.error "boom")).loadingAfter = false ∧
    (submitForm (some "user-1") (some exampleTask) okForm (Except.error "boom")).fieldsAfter = okForm :=
  c7_update_failure "user-1" exampleTask okForm
    ⟨"T", some "d", Status.in_progress, Priority.high, some "2024-05-05"⟩ "boom" rfl

/-- C8: a successful submission invokes the save callback with exactly the
server-returned record and shows a success toast whose phrasing is
"created" when no task was supplied and "updated" when one was. -/
theorem c8_success (uid : String) (task : Option Task) (f : RawForm)
    (data : TaskFormData) (ret : Task)
    (hv : validateForm f = Except.ok data) :
    (submitForm (some uid) task f (Except.ok ret)).saved = some ret ∧
    (submitForm (some uid) task f (Except.ok ret)).toasts =
      [⟨"Success",
        match task with
        | some _ => "Task updated successfully"
        | none => "Task created successfully", false⟩] := by
  unfold submitForm
  rw [hv]
  cases task <;> exact ⟨rfl, rfl⟩

/-- Witness for C8 at a concrete successful creation. -/
theorem c8_success_witness :
    (submitForm (some "user-1") none okForm (Except.ok exampleTask)).saved =
      some exampleTask ∧
    (submitForm (some "user-1") none okForm (Except.ok exampleTask)).toasts =
      [⟨"Success", "Task created successfully", false⟩] :=
  c8_success "user-1" none okForm
    ⟨"T", some "d", Status.in_progress, Priority.high, some "2024-05-05"⟩
    exampleTask rfl

/-- C10: with no authenticated user, the submit handler returns before
doing anything: no request, no callback, no toast, and `loading` is never
set (it stays false). -/
theorem c10_no_user (task : Option Task) (data : TaskFormData)
    (server : Except String Task) :
    handleSubmit none task data server =
      { request := none, saved := none, toasts := [],
        loadingDuring := false, loadingAfter := false } :=
  rfl

end TaskApp
